import Mathlib

/-
Verification of the aegis traffic-interception appliance (Go) against its
natural-language specification.  The Go sources are shallowly embedded:
Go strings become `List Char`, Go maps become association lists (Go map
iteration order is unspecified; the embedding fixes insertion order, and
the properties proved below depend only on membership), fallible calls
return `Option`, and external effects (spawned OS tools, socket binds,
upstream DNS exchanges) are abstracted as explicit oracle arguments.
-/

set_option autoImplicit false

namespace Aegis

/-- Go strings are byte strings; the embedding models them as `List Char`. -/
abbrev Str := List Char

/-- Models Go `strings.ToLower` (ASCII case folding, as used by the sources). -/
def strLower (s : Str) : Str := s.map Char.toLower

/-- Models Go `strings.HasSuffix s suffix`. -/
def hasSuffix (s suffix : Str) : Bool := suffix.isSuffixOf s

/-- Models the Go standard-library check that `s` begins with `p`. -/
def startsWith (s p : Str) : Bool := p.isPrefixOf s

/-- Scan underlying Go `strings.Contains`: does `sub` occur at some position of `s`? -/
def containsAt (sub : Str) : Str → Bool
  | [] => sub.isEmpty
  | c :: rest => sub.isPrefixOf (c :: rest) || containsAt sub rest

/-- Models Go `strings.Contains s sub`. -/
def strContains (s sub : Str) : Bool := containsAt sub s

/-- Whitespace recognizer for `strings.TrimSpace` (ASCII subset). -/
def isSpaceChar (c : Char) : Bool := c = ' ' || c = '\t' || c = '\n' || c = '\r'

/-- Models Go `strings.TrimSpace`. -/
def trimSpace (s : Str) : Str :=
  ((s.dropWhile isSpaceChar).reverse.dropWhile isSpaceChar).reverse

/-- Models Go `strings.Trim s cutset` for a one-character cutset. -/
def trimChar (c : Char) (s : Str) : Str :=
  ((s.dropWhile (· = c)).reverse.dropWhile (· = c)).reverse

/-- Models Go `strings.Split` on a one-character separator. -/
def strSplit (sep : Char) : Str → List Str
  | [] => [[]]
  | c :: rest =>
    match strSplit sep rest with
    | [] => [[c]]
    | g :: gs => if c = sep then [] :: g :: gs else (c :: g) :: gs

/-- First-occurrence lookup in an association list, the observable behaviour
of a Go map read. -/
def mapLookup {α : Type} (k : Str) : List (Str × α) → Option α
  | [] => none
  | (k', v) :: rest => if k = k' then some v else mapLookup k rest

/-- Go map write `m[k] = v`: replaces the first binding of `k`, else appends
(last-write-wins, matching the spec's rebuild policy). -/
def mapSet {α : Type} (m : List (Str × α)) (k : Str) (v : α) : List (Str × α) :=
  match m with
  | [] => [(k, v)]
  | (k', v') :: rest => if k' = k then (k, v) :: rest else (k', v') :: mapSet rest k v

/-- The double-quote character, used by the Windows capture parser. -/
def quoteChar : Char := '\x22'

/-- Normalization applied to query names and rule domains in
`internal/dns/server.go`: lowercase, then append a trailing dot if absent. -/
def normalizeName (name : Str) : Str :=
  let n := strLower name
  if hasSuffix n (".".data) then n else n ++ (".".data)

/-- Redirect rule from `internal/config/types.go` (`DNSRedirect`). -/
structure DNSRedirect where
  domain : Str
  target : Str
  description : Str
  enabled : Bool
deriving DecidableEq, Inhabited

/-- `config.GetEnabledRedirects` from the config package. -/
def GetEnabledRedirects (redirects : List DNSRedirect) : List DNSRedirect :=
  redirects.filter (·.enabled)

/-- The two redirect maps of `internal/dns/server.go` (`Server.redirects` and
`Server.redirectsWildcard`). -/
structure ServerMaps where
  redirects : List (Str × Str)
  redirectsWildcard : List (Str × Str)
deriving DecidableEq, Inhabited

/-- `Server.updateRedirects`: rebuild both maps from the enabled rules.
A domain starting with the two characters of a star and a dot is entered in
the wildcard map under the remainder; otherwise in the exact map. -/
def updateRedirects (rules : List DNSRedirect) : ServerMaps :=
  (GetEnabledRedirects rules).foldl
    (fun maps r =>
      let domain := normalizeName r.domain
      if startsWith domain ("*.".data) then
        { maps with redirectsWildcard := mapSet maps.redirectsWildcard (domain.drop 2) r.target }
      else
        { maps with redirects := mapSet maps.redirects domain r.target })
    ⟨[], []⟩

/-- The wildcard scan inside `Server.shouldRedirectQuery`: return the target of
the first pattern that is a character suffix of the normalized query name. -/
def wildcardLookup : List (Str × Str) → Str → Option Str
  | [], _ => none
  | (pattern, targetIP) :: rest, queryName =>
    if hasSuffix queryName pattern then some targetIP else wildcardLookup rest queryName

/-- `Server.shouldRedirectQuery`: normalize, try the exact map, then scan the
wildcard map.  `some target` models the Go return `(target, true)`. -/
def shouldRedirectQuery (s : ServerMaps) (queryName : Str) : Option Str :=
  let queryName := normalizeName queryName
  match mapLookup queryName s.redirects with
  | some targetIP => some targetIP
  | none => wildcardLookup s.redirectsWildcard queryName

/-! DNS wire model: the record types and message fields the resolver touches,
mirroring the miekg/dns values used in `internal/dns/server.go`. -/

/-- Record type code for A queries (`dns.TypeA`). -/
def TypeA : Nat := 1

/-- Record type code for CNAME queries (`dns.TypeCNAME`). -/
def TypeCNAME : Nat := 5

/-- Record type code for AAAA queries (`dns.TypeAAAA`). -/
def TypeAAAA : Nat := 28

/-- Record type code for MX queries, used as a concrete "other" qtype. -/
def TypeMX : Nat := 15

/-- Response code for success (`dns.RcodeSuccess`). -/
def RcodeSuccess : Nat := 0

/-- Response code SERVFAIL (`dns.RcodeServerFailure`). -/
def RcodeServerFailure : Nat := 2

/-- Response code NXDOMAIN (`dns.RcodeNameError`). -/
def RcodeNameError : Nat := 3

/-- Result of Go `net.ParseIP`: either an address with a 4-byte form
(`To4() != nil`) or a plain 16-byte IPv6 address. -/
inductive GoIP where
  | v4 (a b c d : Nat)
  | v6 (bytes : List Nat)
deriving DecidableEq, Inhabited

/-- The sixteen bytes of the IPv6 loopback address `::1`. -/
def ip6Loopback : List Nat := List.replicate 15 0 ++ [1]

/-- Go `ip.To16()` on an address with a 4-byte form: the IPv4-mapped IPv6
bytes `::ffff:a.b.c.d`. -/
def v4MappedBytes (a b c d : Nat) : List Nat :=
  List.replicate 10 0 ++ [255, 255, a, b, c, d]

/-- Go `ip.To16()` as stored into AAAA rdata: mapped bytes for a 4-byte
address, the bytes themselves for a 16-byte address. -/
def ip6Bytes : GoIP → List Nat
  | .v4 a b c d => v4MappedBytes a b c d
  | .v6 bytes => bytes

/-- One DNS question (`dns.Question`): name and query type. -/
structure Question where
  name : Str
  qtype : Nat
deriving DecidableEq, Inhabited

/-- A synthesized resource record.  The A rdata is `Option GoIP` because the
Go code stores `net.ParseIP(target)` directly, which is nil for a non-IP
target; the AAAA rdata is always sixteen concrete bytes. -/
inductive RR where
  | A (name : Str) (ttl : Nat) (addr : Option GoIP)
  | AAAA (name : Str) (ttl : Nat) (addr : List Nat)
deriving DecidableEq, Inhabited

/-- The DNS message fields the resolver reads or writes. -/
structure Msg where
  id : Nat
  response : Bool
  rcode : Nat
  authoritative : Bool
  recursionAvailable : Bool
  question : List Question
  answer : List RR
deriving DecidableEq, Inhabited

/-- miekg `m.SetReply(r)`: copy the id and the first question, mark as a
response with success rcode and no answers. -/
def setReply (r : Msg) : Msg :=
  { id := r.id
    response := true
    rcode := RcodeSuccess
    authoritative := false
    recursionAvailable := false
    question := r.question.take 1
    answer := [] }

/-- The reply skeleton built at the top of `Server.handleDNSRequest`:
`SetReply` plus `Authoritative = true` and `RecursionAvailable = true`. -/
def initialReply (r : Msg) : Msg :=
  { setReply r with authoritative := true, recursionAvailable := true }

/-- `Server.handleRedirectQuery`: synthesize the answer for a redirect hit.
`parseIP` abstracts Go `net.ParseIP`. -/
def handleRedirectQuery (parseIP : Str → Option GoIP) (m : Msg) (q : Question)
    (targetIP : Str) : Msg :=
  if q.qtype = TypeA then
    { m with answer := m.answer ++ [RR.A q.name 300 (parseIP targetIP)] }
  else if q.qtype = TypeAAAA then
    let ipv6 : List Nat :=
      match parseIP targetIP with
      | some ip =>
        match ip with
        | .v4 a b c d =>
          if targetIP = "127.0.0.1".data then ip6Loopback
          else v4MappedBytes a b c d
        | .v6 bytes => bytes
      | none => ip6Loopback
    { m with answer := m.answer ++ [RR.AAAA q.name 300 ipv6] }
  else if q.qtype = TypeCNAME then
    { m with answer := m.answer ++ [RR.A q.name 300 (parseIP targetIP)] }
  else
    { m with rcode := RcodeNameError }

/-- The `client.Timeout = 5 * time.Second` set in `forwardToUpstream`. -/
def upstreamTimeoutSeconds : Nat := 5

/-- `Server.forwardToUpstream`: exchange the verbatim original request with
the upstream endpoint and relay the reply unchanged; on failure write the
prepared reply with rcode SERVFAIL.  `exchange timeout msg addr` abstracts
`dns.Client.Exchange` and returns `none` on error.  The result is the message
written to the client. -/
def forwardToUpstream (exchange : Nat → Msg → Str → Option Msg) (upstreamDNS : Str)
    (m originalReq : Msg) : Msg :=
  match exchange upstreamTimeoutSeconds originalReq upstreamDNS with
  | none => { m with rcode := RcodeServerFailure }
  | some resp => resp

/-- The question loop of `Server.handleDNSRequest`: redirect hits accumulate
answers; the first miss short-circuits and forwards the whole original
request. -/
def handleQuestions (maps : ServerMaps) (parseIP : Str → Option GoIP)
    (exchange : Nat → Msg → Str → Option Msg) (upstreamDNS : Str)
    (r : Msg) : Msg → List Question → Msg
  | m, [] => m
  | m, q :: rest =>
    match shouldRedirectQuery maps (strLower q.name) with
    | some targetIP => handleQuestions maps parseIP exchange upstreamDNS r
        (handleRedirectQuery parseIP m q targetIP) rest
    | none => forwardToUpstream exchange upstreamDNS m r

/-- `Server.handleDNSRequest`: build the reply skeleton and process the
questions of the request.  The result is the message written to the client. -/
def handleDNSRequest (maps : ServerMaps) (parseIP : Str → Option GoIP)
    (exchange : Nat → Msg → Str → Option Msg) (upstreamDNS : Str) (r : Msg) : Msg :=
  handleQuestions maps parseIP exchange upstreamDNS r (initialReply r) r.question

/-! System-DNS manager, from `internal/dns/manager.go`.  The snapshot
`Manager.originalDNS` maps an interface name to its resolver list. -/

/-- The `Manager.originalDNS` snapshot: interface name to ordered resolvers. -/
abbrev SnapMap := List (Str × List Str)

/-- Go `dm.originalDNS[k] = append(dm.originalDNS[k], v)` (creating the entry
when absent), as performed by the Windows capture loop. -/
def snapAppend (m : SnapMap) (k v : Str) : SnapMap :=
  match m with
  | [] => [(k, [v])]
  | (k', vs) :: rest =>
    if k' = k then (k', vs ++ [v]) :: rest else (k', vs) :: snapAppend rest k v

/-- The resolver list stored for interface `k` (empty when absent). -/
def lookupList (k : Str) (m : SnapMap) : List Str :=
  (mapLookup k m).getD []

/-- The line loop of `Manager.getCurrentDNSWindows`: an interface header line
updates the current interface; a line containing a dot is appended to the
current interface's resolver list. -/
def captureLines (snap : SnapMap) (currentInterface : Str) : List Str → SnapMap
  | [] => snap
  | line :: rest =>
    let line := trimSpace line
    if strContains line ("Interface".data) && strContains line (":".data) then
      let parts := strSplit ':' line
      if 1 < parts.length then
        captureLines snap (trimChar quoteChar (trimSpace (parts.getD 1 []))) rest
      else
        captureLines snap currentInterface rest
    else if strContains line (".".data) && !(currentInterface = []) then
      captureLines (snapAppend snap currentInterface line) currentInterface rest
    else
      captureLines snap currentInterface rest

/-- `Manager.getCurrentDNSWindows`: split the netsh tool output into lines and
run the capture loop over the existing snapshot (there is no once-only guard:
the loop appends to whatever is already stored). -/
def getCurrentDNSWindows (originalDNS : SnapMap) (output : Str) : SnapMap :=
  captureLines originalDNS [] (strSplit '\n' output)

/-- `Manager.setDNSWindows` interface loop: the interfaces whose netsh
invocation succeeded, in snapshot order.  `cmdOk` abstracts `cmd.Run()`. -/
def setDNSWindowsLoop (cmdOk : Str → Bool) : SnapMap → List Str
  | [] => []
  | (interfaceName, _) :: rest =>
    if cmdOk interfaceName then interfaceName :: setDNSWindowsLoop cmdOk rest
    else setDNSWindowsLoop cmdOk rest

/-- `Manager.setDNSWindows`: attempt every captured interface, warn on
per-interface failure, and return nil unconditionally.  The first component
is the list of successfully mutated interfaces, the second the returned
error. -/
def setDNSWindows (originalDNS : SnapMap) (cmdOk : Str → Bool) :
    List Str × Option Str :=
  (setDNSWindowsLoop cmdOk originalDNS, none)

/-- Reserved fallback snapshot keys skipped by the macOS apply and restore
loops. -/
def macReservedKey (serviceName : Str) : Bool :=
  serviceName = "system".data || serviceName = "resolv.conf".data

/-- The macOS apply loop of `Manager.setDNSMacOS`: count the services whose
networksetup invocation succeeded, skipping reserved keys and inactive
services.  `active` abstracts `isNetworkServiceActive`, `cmdOk` the
`cmd.CombinedOutput()` outcome. -/
def setDNSMacOSLoop (active cmdOk : Str → Bool) : SnapMap → Nat
  | [] => 0
  | (serviceName, _) :: rest =>
    if macReservedKey serviceName then setDNSMacOSLoop active cmdOk rest
    else if !active serviceName then setDNSMacOSLoop active cmdOk rest
    else if cmdOk serviceName then setDNSMacOSLoop active cmdOk rest + 1
    else setDNSMacOSLoop active cmdOk rest

/-- `Manager.setDNSMacOS`: success count plus the returned error, which is
non-nil exactly when no service was mutated. -/
def setDNSMacOS (originalDNS : SnapMap) (active cmdOk : Str → Bool) :
    Nat × Option Str :=
  let successCount := setDNSMacOSLoop active cmdOk originalDNS
  (successCount,
   if successCount = 0 then some ("failed to configure DNS on any network interface".data)
   else none)

/-! Lifecycle coordinator, from the `StartService` function of the dns
service file (`src/unnamed/part_002`). -/

/-- The port fallback list tried by `StartService`, in order. -/
def fallbackPorts : List Str :=
  [":53".data, ":8053".data, ":5353".data, ":9053".data, ":10053".data]

/-- The port loop of `StartService`: the first port that binds wins, and
system DNS is applied exactly when auto-manage is on and the captured
snapshot is non-empty — the same condition for every port.  `bindOk`
abstracts `server.Start`.  The result is the bound port paired with whether
`SetDNSToLocal` was invoked, or `none` when every port fails. -/
def startServiceTryPorts (bindOk : Str → Bool) (autoManageSystem : Bool)
    (originalDNS : SnapMap) : List Str → Option (Str × Bool)
  | [] => none
  | port :: rest =>
    if bindOk port then
      some (port, autoManageSystem && decide (0 < originalDNS.length))
    else
      startServiceTryPorts bindOk autoManageSystem originalDNS rest

/-- `StartService`, reduced to its port selection and system-DNS decision. -/
def StartService (bindOk : Str → Bool) (autoManageSystem : Bool)
    (originalDNS : SnapMap) : Option (Str × Bool) :=
  startServiceTryPorts bindOk autoManageSystem originalDNS fallbackPorts

/-! Reverse proxy, from `internal/proxy/handler.go` and the fiber app
configuration in `cmd/aegis/main.go`. -/

/-- The response fields of a fiber context the error path touches. -/
structure FiberCtx where
  statusCode : Nat
  contentType : Str
  jsonBody : Option (Nat × Str × Str)
deriving DecidableEq, Inhabited

/-- A fresh fasthttp response: the status code defaults to 200 until a
handler sets it. -/
def newFiberResponse : FiberCtx :=
  { statusCode := 200, contentType := [], jsonBody := none }

/-- fiber `c.JSON(body)`: write the serialized body and the JSON content
type; the status code is left unchanged. -/
def ctxJSON (c : FiberCtx) (body : Nat × Str × Str) : FiberCtx :=
  { c with contentType := "application/json".data, jsonBody := some body }

/-- fiber `StatusInternalServerError`. -/
def StatusInternalServerError : Nat := 500

/-- The `ErrorHandler` closure of the `fiber.Config` in `startProxyServer`:
respond with `c.JSON` of the code/message/error map.  It never calls
`c.Status`. -/
def errorHandler (c : FiberCtx) (errMessage : Str) : FiberCtx :=
  ctxJSON c (StatusInternalServerError, "Internal Server Error".data, errMessage)

/-- The response produced when `proxy.Do` fails: the handler returns the
error, and fiber invokes the configured `ErrorHandler` on the fresh
response. -/
def upstreamFailureResponse (cause : Str) : FiberCtx :=
  errorHandler newFiberResponse cause

/-- The inbound request fields the proxy handler reads. -/
structure ProxyRequest where
  host : Str
  path : Str
  queryString : Str
  fullURL : Str
  headers : List (Str × Str)
deriving DecidableEq, Inhabited

/-- fasthttp `Header.Peek` converted to string: the stored value, or the
empty string when the header is absent. -/
def headerPeek (headers : List (Str × Str)) (k : Str) : Str :=
  (mapLookup k headers).getD []

/-- The `X-Epic-URL` header name. -/
def xEpicURLKey : Str := "X-Epic-URL".data

/-- The `X-Telemachus-Identifier` header name. -/
def telemachusKey : Str := "X-Telemachus-Identifier".data

/-- `proxy.Handler`: choose the outbound `X-Epic-URL` value, set the
identifier header, and build the outbound URL as base ++ path ++ "?" ++
query.  The result is the outbound header map paired with the outbound
upstream URL. -/
def Handler (upstreamURL identifier : Str) (req : ProxyRequest) :
    List (Str × Str) × Str :=
  let headers :=
    let epicURL := headerPeek req.headers xEpicURLKey
    if !(epicURL = []) then mapSet req.headers xEpicURLKey epicURL
    else if !(req.host = "localhost".data) then mapSet req.headers xEpicURLKey req.fullURL
    else mapSet req.headers xEpicURLKey (headerPeek req.headers xEpicURLKey)
  let headers := mapSet headers telemachusKey identifier
  (headers, upstreamURL ++ req.path ++ ("?".data) ++ req.queryString)

/-! Configuration operations, from the config package file
(`src/unnamed/part_004`). -/

/-- The redirect loop of `config.validate`: the first redirect with an empty
domain or an empty target yields an error; nothing else is checked (in
particular the target is never parsed as an IP). -/
def validateRedirects : List DNSRedirect → Option Str
  | [] => none
  | r :: rest =>
    if r.domain = [] then some ("domain is required".data)
    else if r.target = [] then some ("target is required".data)
    else validateRedirects rest

/-- `config.validate`: default the upstream DNS, require a proxy upstream
URL, then validate the redirects.  Returns the defaulted upstream plus the
error, if any. -/
def validate (upstreamDNS proxyUpstreamURL : Str) (redirects : List DNSRedirect) :
    Str × Option Str :=
  let upstreamDNS := if upstreamDNS = [] then "1.1.1.1:53".data else upstreamDNS
  if proxyUpstreamURL = [] then (upstreamDNS, some ("proxy upstream_url is required".data))
  else (upstreamDNS, validateRedirects redirects)

/-- Outcome of a redirect-collection mutation: the resulting collection,
whether `Save()` was invoked, and the returned error. -/
structure MutResult where
  redirects : List DNSRedirect
  saveCalled : Bool
  err : Option Str
deriving DecidableEq, Inhabited

/-- `config.RemoveRedirect`: reject out-of-range indices, else drop the
element by re-slicing (`append(rs[:index], rs[index+1:]...)`) and save. -/
def RemoveRedirect (redirects : List DNSRedirect) (index : Int) : MutResult :=
  if index < 0 ∨ index ≥ redirects.length then
    { redirects := redirects, saveCalled := false, err := some ("invalid redirect index".data) }
  else
    { redirects := redirects.take index.toNat ++ redirects.drop (index.toNat + 1)
      saveCalled := true
      err := none }

/-- The in-place flip `rs[index].Enabled = !rs[index].Enabled`. -/
def toggleAt : List DNSRedirect → Nat → List DNSRedirect
  | [], _ => []
  | r :: rest, 0 => { r with enabled := !r.enabled } :: rest
  | r :: rest, n + 1 => r :: toggleAt rest n

/-- `config.ToggleRedirect`: reject out-of-range indices, else flip the
addressed element's enabled flag and save. -/
def ToggleRedirect (redirects : List DNSRedirect) (index : Int) : MutResult :=
  if index < 0 ∨ index ≥ redirects.length then
    { redirects := redirects, saveCalled := false, err := some ("invalid redirect index".data) }
  else
    { redirects := toggleAt redirects index.toNat
      saveCalled := true
      err := none }

/-! Concrete configurations used by witnesses and counterexamples. -/

/-- A configuration with one enabled wildcard rule, the shape of the default
config (`*.ol.epicgames.com`-style) reduced to the spec's running example. -/
def exampleWildcardRules : List DNSRedirect :=
  [{ domain := "*.example.com".data
     target := "127.0.0.1".data
     description := []
     enabled := true }]

/-- The resolver maps built from `exampleWildcardRules`. -/
def exampleWildcardMaps : ServerMaps := updateRedirects exampleWildcardRules

/-- A netsh output sample: one interface header line followed by one resolver
line. -/
def netshSampleOutput : Str := "Interface: Ethernet\n8.8.8.8".data

/-- A concrete stand-in for Go `net.ParseIP` used by witnesses: a three-entry
table, nil elsewhere. -/
def parseIPex : Str → Option GoIP := fun s =>
  if s = "127.0.0.1".data then some (.v4 127 0 0 1)
  else if s = "10.0.0.5".data then some (.v4 10 0 0 5)
  else if s = "fe80::1".data then some (.v6 ([254, 128] ++ List.replicate 13 0 ++ [1]))
  else none

/-- A blank message for witness instantiations. -/
def emptyMsg : Msg :=
  { id := 0, response := false, rcode := 0, authoritative := false
    recursionAvailable := false, question := [], answer := [] }

/-- A single-question request for a name no example rule matches. -/
def forwardReqEx : Msg :=
  { emptyMsg with id := 1234, question := [{ name := "example.org.".data, qtype := TypeA }] }

/-- Two concrete rules for exercising the index-addressed mutations. -/
def redirectRulesEx : List DNSRedirect :=
  [{ domain := "a.example.com".data, target := "127.0.0.1".data
     description := [], enabled := true },
   { domain := "b.example.com".data, target := "10.0.0.5".data
     description := [], enabled := false }]

/-- The rule with a non-IP target used by the C9 witness. -/
def nonIPRuleEx : DNSRedirect :=
  { domain := "game.example.com".data, target := "not-an-ip".data
    description := [], enabled := true }

/-! Shared helper lemmas. -/

/-- Reading a key just written by a Go map write returns the written value. -/
theorem mapLookup_mapSet_self {α : Type} (m : List (Str × α)) (k : Str) (v : α) :
    mapLookup k (mapSet m k v) = some v := by
  induction m with
  | nil => simp [mapSet, mapLookup]
  | cons kv rest ih =>
    obtain ⟨k', v'⟩ := kv
    by_cases h : k' = k
    · simp [mapSet, mapLookup, h]
    · simp [mapSet, mapLookup, h, Ne.symm h, ih]

/-- A Go map write leaves every other key unchanged. -/
theorem mapLookup_mapSet_ne {α : Type} (m : List (Str × α)) (k k' : Str) (v : α)
    (h : ¬ k = k') : mapLookup k (mapSet m k' v) = mapLookup k m := by
  induction m with
  | nil => simp [mapSet, mapLookup, h]
  | cons kv rest ih =>
    obtain ⟨k0, v0⟩ := kv
    by_cases h0 : k0 = k'
    · subst h0
      simp [mapSet, mapLookup, h]
    · by_cases hk : k = k0 <;> simp [mapSet, mapLookup, h0, hk, ih]

/-- Appending one resolver to an interface's snapshot entry extends exactly
that interface's stored list. -/
theorem lookupList_snapAppend (m : SnapMap) (k v k' : Str) :
    lookupList k' (snapAppend m k v)
      = lookupList k' m ++ (if k' = k then [v] else []) := by
  induction m with
  | nil =>
    by_cases h : k' = k <;> simp [snapAppend, lookupList, mapLookup, h]
  | cons kv rest ih =>
    obtain ⟨k0, vs⟩ := kv
    by_cases h0 : k0 = k
    · subst h0
      by_cases h' : k' = k0 <;> simp [snapAppend, lookupList, mapLookup, h']
    · by_cases h' : k' = k0
      · subst h'
        simp [snapAppend, lookupList, mapLookup, h0]
      · simpa [snapAppend, lookupList, mapLookup, h0, h'] using ih

/-- The capture loop distributes over the initial snapshot: whatever it
parses out of the tool output is appended per interface to what was already
stored. -/
theorem lookupList_captureLines (lines : List Str) :
    ∀ (snap : SnapMap) (cur k : Str),
      lookupList k (captureLines snap cur lines)
        = lookupList k snap ++ lookupList k (captureLines [] cur lines) := by
  induction lines with
  | nil => intro snap cur k; simp [captureLines, lookupList, mapLookup]
  | cons line rest ih =>
    intro snap cur k
    simp only [captureLines]
    by_cases h1 : (strContains (trimSpace line) ("Interface".data)
        && strContains (trimSpace line) (":".data)) = true
    · simp only [h1, if_true]
      by_cases h2 : 1 < (strSplit ':' (trimSpace line)).length
      · simp only [h2, if_pos]
        exact ih snap _ k
      · simp only [h2, if_neg, if_false]
        exact ih snap cur k
    · simp only [Bool.not_eq_true] at h1
      simp only [h1, Bool.false_eq_true, if_false]
      by_cases h2 : (strContains (trimSpace line) (".".data) && !decide (cur = [])) = true
      · simp only [h2, if_true]
        rw [ih (snapAppend snap cur (trimSpace line)) cur k,
            ih (snapAppend [] cur (trimSpace line)) cur k,
            lookupList_snapAppend, lookupList_snapAppend]
        simp [lookupList, mapLookup, List.append_assoc]
      · simp only [Bool.not_eq_true] at h2
        simp only [h2, Bool.false_eq_true, if_false]
        exact ih snap cur k

/-! Claim C1: wildcard matching in `shouldRedirectQuery`. -/

/-- C1 counterexample.  With the single enabled rule `*.example.com ->
127.0.0.1`, the query `notexample.com` is reported as a match, although its
normalized form neither ends in `.example.com` (with or without the trailing
dot) nor equals the bare suffix: the claimed dot-boundary iff is false. -/
theorem wildcard_no_dot_boundary_counterexample :
    (shouldRedirectQuery exampleWildcardMaps ("notexample.com".data)).isSome = true
    ∧ hasSuffix (normalizeName ("notexample.com".data)) (".example.com.".data) = false
    ∧ hasSuffix (normalizeName ("notexample.com".data)) (".example.com".data) = false
    ∧ ¬ normalizeName ("notexample.com".data) = ("example.com.".data)
    ∧ ¬ normalizeName ("notexample.com".data) = ("example.com".data) := by
  decide

/-- C1 (amended).  For the enabled wildcard rule `*.example.com ->
127.0.0.1`, `shouldRedirectQuery` reports a match for a name exactly when the
normalized name ends with the characters `example.com.` — no dot boundary is
required.  Consequently subdomains and the bare apex match, but so does
`notexample.com`; `example.com.other.tld` still does not match. -/
theorem wildcard_match_is_char_suffix :
    (∀ n : Str, (shouldRedirectQuery exampleWildcardMaps n).isSome
        = hasSuffix (normalizeName n) ("example.com.".data))
    ∧ shouldRedirectQuery exampleWildcardMaps ("sub.example.com".data)
        = some ("127.0.0.1".data)
    ∧ shouldRedirectQuery exampleWildcardMaps ("EXAMPLE.com".data)
        = some ("127.0.0.1".data)
    ∧ shouldRedirectQuery exampleWildcardMaps ("notexample.com".data)
        = some ("127.0.0.1".data)
    ∧ shouldRedirectQuery exampleWildcardMaps ("example.com.other.tld".data) = none := by
  refine ⟨?_, by decide, by decide, by decide, by decide⟩
  intro n
  have hmaps : exampleWildcardMaps
      = ⟨[], [("example.com.".data, "127.0.0.1".data)]⟩ := by decide
  rw [hmaps]
  show (match mapLookup (normalizeName n) [] with
        | some targetIP => some targetIP
        | none => wildcardLookup [("example.com.".data, "127.0.0.1".data)] (normalizeName n)).isSome
      = hasSuffix (normalizeName n) ("example.com.".data)
  by_cases hs : hasSuffix (normalizeName n) ("example.com.".data) = true
  · simp [mapLookup, wildcardLookup, hs]
  · simp only [Bool.not_eq_true] at hs
    simp [mapLookup, wildcardLookup, hs]

/-! Claim C2: the system-DNS decision in `StartService`. -/

/-- C2 counterexample.  With auto-manage enabled and a non-empty captured
snapshot, a successful bind on port `:53` still invokes `SetDNSToLocal`:
`StartService` has no special case skipping mutation on the canonical
port. -/
theorem startService_port53_counterexample :
    StartService (fun p => p == (":53".data)) true
        [(("Wi-Fi".data), ["8.8.8.8".data])]
      = some ((":53".data), true) := by
  decide

/-- The port loop applies the same system-DNS decision at every port. -/
theorem startServiceTryPorts_applied (bindOk : Str → Bool) (autoManageSystem : Bool)
    (originalDNS : SnapMap) :
    ∀ (ports : List Str) (port : Str) (applied : Bool),
      startServiceTryPorts bindOk autoManageSystem originalDNS ports
          = some (port, applied) →
      applied = (autoManageSystem && decide (0 < originalDNS.length)) := by
  intro ports
  induction ports with
  | nil => intro port applied h; simp [startServiceTryPorts] at h
  | cons p rest ih =>
    intro port applied h
    by_cases hb : bindOk p = true
    · simp [startServiceTryPorts, hb] at h
      exact h.2.symm
    · simp only [Bool.not_eq_true] at hb
      simp [startServiceTryPorts, hb] at h
      exact ih port applied h

/-- C2 (amended).  Whatever port the resolver ends up bound to — `:53`
included — `SetDNSToLocal` is invoked exactly when `autoManageSystem` is
enabled and the captured snapshot is non-empty. -/
theorem startService_apply_decision (bindOk : Str → Bool) (autoManageSystem : Bool)
    (originalDNS : SnapMap) (port : Str) (applied : Bool)
    (h : StartService bindOk autoManageSystem originalDNS = some (port, applied)) :
    applied = (autoManageSystem && decide (0 < originalDNS.length)) :=
  startServiceTryPorts_applied bindOk autoManageSystem originalDNS fallbackPorts port applied h

/-- C2 witness: the amended decision rule at a concrete start where `:53` is
occupied and `:8053` binds. -/
theorem startService_apply_decision_witness :
    StartService (fun p => p == (":8053".data)) true
        [(("Wi-Fi".data), ["8.8.8.8".data])]
      = some ((":8053".data), true)
    ∧ true = (true && decide
        (0 < ([(("Wi-Fi".data), ["8.8.8.8".data])] : SnapMap).length)) :=
  ⟨by decide,
   startService_apply_decision (fun p => p == (":8053".data)) true
     [(("Wi-Fi".data), ["8.8.8.8".data])] (":8053".data) true (by decide)⟩

/-! Claim C3: error policy of the apply step. -/

/-- C3 counterexample.  On Windows, when every netsh invocation fails, zero
interfaces are mutated and yet `setDNSWindows` reports success: "error iff
zero interfaces mutated" does not hold on Windows. -/
theorem setDNSWindows_total_failure_counterexample :
    setDNSWindows [(("Ethernet".data), ["8.8.8.8".data])] (fun _ => false)
      = ([], none) := by
  decide

/-- The macOS apply loop succeeds for some service exactly when the snapshot
holds a non-reserved, active service whose networksetup invocation
succeeds. -/
theorem setDNSMacOSLoop_pos_iff (active cmdOk : Str → Bool) :
    ∀ snap : SnapMap,
      0 < setDNSMacOSLoop active cmdOk snap
        ↔ ∃ kv ∈ snap, macReservedKey kv.1 = false
            ∧ active kv.1 = true ∧ cmdOk kv.1 = true := by
  intro snap
  induction snap with
  | nil => simp [setDNSMacOSLoop]
  | cons kv rest ih =>
    obtain ⟨serviceName, vs⟩ := kv
    by_cases hres : macReservedKey serviceName = true
    · simp [setDNSMacOSLoop, hres, ih]
    · simp only [Bool.not_eq_true] at hres
      by_cases hact : active serviceName = true
      · by_cases hcmd : cmdOk serviceName = true
        · simp [setDNSMacOSLoop, hres, hact, hcmd, Nat.succ_pos]
        · simp only [Bool.not_eq_true] at hcmd
          simp [setDNSMacOSLoop, hres, hact, hcmd, ih]
      · simp only [Bool.not_eq_true] at hact
        simp [setDNSMacOSLoop, hres, hact, ih]

/-- C3 (amended).  Per-interface failures are warnings on both platforms, but
the any-success policy holds only on macOS: `setDNSMacOS` errors exactly when
no non-reserved active service could be mutated, while `setDNSWindows` always
returns success (its mutated set being the interfaces whose netsh call
succeeded), even when that set is empty. -/
theorem setDNSLocal_error_policy :
    (∀ (snap : SnapMap) (cmdOk : Str → Bool),
      (setDNSWindows snap cmdOk).2 = none
      ∧ (setDNSWindows snap cmdOk).1 = (snap.map Prod.fst).filter cmdOk)
    ∧ (∀ (snap : SnapMap) (active cmdOk : Str → Bool),
      (setDNSMacOS snap active cmdOk).2 = none
        ↔ ∃ kv ∈ snap, macReservedKey kv.1 = false
            ∧ active kv.1 = true ∧ cmdOk kv.1 = true) := by
  constructor
  · intro snap cmdOk
    refine ⟨rfl, ?_⟩
    show setDNSWindowsLoop cmdOk snap = (snap.map Prod.fst).filter cmdOk
    induction snap with
    | nil => simp [setDNSWindowsLoop]
    | cons kv rest ih =>
      by_cases hc : cmdOk kv.1 = true
      · simp [setDNSWindowsLoop, hc, List.filter, ih]
      · simp only [Bool.not_eq_true] at hc
        simp [setDNSWindowsLoop, hc, List.filter, ih]
  · intro snap active cmdOk
    rw [← setDNSMacOSLoop_pos_iff active cmdOk snap]
    show (if setDNSMacOSLoop active cmdOk snap = 0 then
            some ("failed to configure DNS on any network interface".data)
          else none) = none
        ↔ 0 < setDNSMacOSLoop active cmdOk snap
    by_cases h0 : setDNSMacOSLoop active cmdOk snap = 0
    · simp [h0]
    · simp [h0, Nat.pos_of_ne_zero h0]

/-! Claim C4: the proxy error surface. -/

/-- C4: evaluation of the failure path.  The `ErrorHandler` serializes the
code-500 JSON body but never sets the response status, so the wire status
stays at the fasthttp default of 200 — not the claimed 500. -/
theorem upstream_failure_response_shape (cause : Str) :
    (upstreamFailureResponse cause).statusCode = 200
    ∧ (upstreamFailureResponse cause).jsonBody
        = some (500, ("Internal Server Error".data), cause)
    ∧ (upstreamFailureResponse cause).contentType = "application/json".data
    ∧ ¬ (upstreamFailureResponse cause).statusCode = StatusInternalServerError := by
  refine ⟨rfl, rfl, rfl, ?_⟩
  show ¬ (200 : Nat) = 500
  omega

/-! Claim C5: re-invocation of the Windows capture. -/

/-- C5 counterexample.  Capturing twice from the same netsh output doubles
the stored resolver list instead of leaving the snapshot unchanged:
re-invocation of capture is not a no-op. -/
theorem capture_reinvocation_counterexample :
    getCurrentDNSWindows [] netshSampleOutput
      = [(("Ethernet".data), ["8.8.8.8".data])]
    ∧ getCurrentDNSWindows (getCurrentDNSWindows [] netshSampleOutput) netshSampleOutput
      = [(("Ethernet".data), ["8.8.8.8".data, "8.8.8.8".data])]
    ∧ ¬ getCurrentDNSWindows (getCurrentDNSWindows [] netshSampleOutput) netshSampleOutput
      = getCurrentDNSWindows [] netshSampleOutput := by
  decide

/-- C5 (amended).  `GetCurrentDNS` has no once-only guard: every invocation
of the Windows capture re-parses the tool output and appends the parsed
resolvers to each interface's already-stored list (so a second capture
duplicates entries rather than leaving the snapshot unchanged; the start
sequence invokes capture once per service start). -/
theorem capture_reinvocation_appends (snap : SnapMap) (output : Str) (k : Str) :
    lookupList k (getCurrentDNSWindows snap output)
      = lookupList k snap ++ lookupList k (getCurrentDNSWindows [] output) :=
  lookupList_captureLines (strSplit '\n' output) snap [] k

/-! Claim C6: the qtype table of `handleRedirectQuery`. -/

/-- C6.  On a redirect hit the synthesized answer follows the qtype table:
qtype A appends one A record carrying the parsed target and TTL 300; qtype
AAAA appends one AAAA record — `::1` when the target is the string
`127.0.0.1`, the IPv4-mapped bytes for any other 4-byte target, the bytes
verbatim for a 16-byte target; qtype CNAME appends an A record with the
target; every other qtype only sets the NXDOMAIN rcode, leaving the answer
section untouched. -/
theorem redirect_answer_qtype_table (parseIP : Str → Option GoIP) (m : Msg)
    (q : Question) (targetIP : Str) :
    (q.qtype = TypeA →
      handleRedirectQuery parseIP m q targetIP
        = { m with answer := m.answer ++ [RR.A q.name 300 (parseIP targetIP)] })
    ∧ (∀ a b c d : Nat, q.qtype = TypeAAAA →
        parseIP targetIP = some (GoIP.v4 a b c d) → targetIP = "127.0.0.1".data →
      handleRedirectQuery parseIP m q targetIP
        = { m with answer := m.answer ++ [RR.AAAA q.name 300 ip6Loopback] })
    ∧ (∀ a b c d : Nat, q.qtype = TypeAAAA →
        parseIP targetIP = some (GoIP.v4 a b c d) → ¬ targetIP = "127.0.0.1".data →
      handleRedirectQuery parseIP m q targetIP
        = { m with answer := m.answer ++ [RR.AAAA q.name 300 (v4MappedBytes a b c d)] })
    ∧ (∀ bytes : List Nat, q.qtype = TypeAAAA →
        parseIP targetIP = some (GoIP.v6 bytes) →
      handleRedirectQuery parseIP m q targetIP
        = { m with answer := m.answer ++ [RR.AAAA q.name 300 bytes] })
    ∧ (q.qtype = TypeCNAME →
      handleRedirectQuery parseIP m q targetIP
        = { m with answer := m.answer ++ [RR.A q.name 300 (parseIP targetIP)] })
    ∧ (¬ q.qtype = TypeA → ¬ q.qtype = TypeAAAA → ¬ q.qtype = TypeCNAME →
      handleRedirectQuery parseIP m q targetIP = { m with rcode := RcodeNameError }) := by
  refine ⟨?_, ?_, ?_, ?_, ?_, ?_⟩
  · intro h
    simp [handleRedirectQuery, h]
  · intro a b c d h hip hloc
    subst hloc
    simp [handleRedirectQuery, h, hip, TypeA, TypeAAAA]
  · intro a b c d h hip hloc
    simp [handleRedirectQuery, h, hip, hloc, TypeA, TypeAAAA]
  · intro bytes h hip
    simp [handleRedirectQuery, h, hip, TypeA, TypeAAAA]
  · intro h
    simp [handleRedirectQuery, h, TypeA, TypeAAAA, TypeCNAME]
  · intro hA hAAAA hCNAME
    simp [handleRedirectQuery, hA, hAAAA, hCNAME]

/-- C6 witness: the six rows of the table at concrete inputs. -/
theorem redirect_answer_qtype_table_witness :
    handleRedirectQuery parseIPex emptyMsg
        { name := "a.example.com.".data, qtype := TypeA } ("127.0.0.1".data)
      = { emptyMsg with answer := emptyMsg.answer
            ++ [RR.A ("a.example.com.".data) 300 (parseIPex ("127.0.0.1".data))] }
    ∧ handleRedirectQuery parseIPex emptyMsg
        { name := "a.example.com.".data, qtype := TypeAAAA } ("127.0.0.1".data)
      = { emptyMsg with answer := emptyMsg.answer
            ++ [RR.AAAA ("a.example.com.".data) 300 ip6Loopback] }
    ∧ handleRedirectQuery parseIPex emptyMsg
        { name := "a.example.com.".data, qtype := TypeAAAA } ("10.0.0.5".data)
      = { emptyMsg with answer := emptyMsg.answer
            ++ [RR.AAAA ("a.example.com.".data) 300 (v4MappedBytes 10 0 0 5)] }
    ∧ handleRedirectQuery parseIPex emptyMsg
        { name := "a.example.com.".data, qtype := TypeAAAA } ("fe80::1".data)
      = { emptyMsg with answer := emptyMsg.answer
            ++ [RR.AAAA ("a.example.com.".data) 300
                  ([254, 128] ++ List.replicate 13 0 ++ [1])] }
    ∧ handleRedirectQuery parseIPex emptyMsg
        { name := "a.example.com.".data, qtype := TypeCNAME } ("127.0.0.1".data)
      = { emptyMsg with answer := emptyMsg.answer
            ++ [RR.A ("a.example.com.".data) 300 (parseIPex ("127.0.0.1".data))] }
    ∧ handleRedirectQuery parseIPex emptyMsg
        { name := "a.example.com.".data, qtype := TypeMX } ("127.0.0.1".data)
      = { emptyMsg with rcode := RcodeNameError } :=
  ⟨(redirect_answer_qtype_table parseIPex emptyMsg
      { name := "a.example.com.".data, qtype := TypeA } ("127.0.0.1".data)).1 rfl,
   (redirect_answer_qtype_table parseIPex emptyMsg
      { name := "a.example.com.".data, qtype := TypeAAAA } ("127.0.0.1".data)).2.1
      127 0 0 1 rfl (by decide) rfl,
   (redirect_answer_qtype_table parseIPex emptyMsg
      { name := "a.example.com.".data, qtype := TypeAAAA } ("10.0.0.5".data)).2.2.1
      10 0 0 5 rfl (by decide) (by decide),
   (redirect_answer_qtype_table parseIPex emptyMsg
      { name := "a.example.com.".data, qtype := TypeAAAA } ("fe80::1".data)).2.2.2.1
      ([254, 128] ++ List.replicate 13 0 ++ [1]) rfl (by decide),
   (redirect_answer_qtype_table parseIPex emptyMsg
      { name := "a.example.com.".data, qtype := TypeCNAME } ("127.0.0.1".data)).2.2.2.2.1 rfl,
   (redirect_answer_qtype_table parseIPex emptyMsg
      { name := "a.example.com.".data, qtype := TypeMX } ("127.0.0.1".data)).2.2.2.2.2
      (by decide) (by decide) (by decide)⟩

/-! Claim C7: forwarding on a miss. -/

/-- C7.  For a request whose (single) question matches no enabled rule, the
handler exchanges the verbatim original request with the upstream endpoint
under the 5-second client timeout and writes the upstream reply unchanged;
when the exchange fails the client receives the prepared reply with rcode
SERVFAIL. -/
theorem forward_miss_verbatim_servfail (maps : ServerMaps)
    (parseIP : Str → Option GoIP) (exchange : Nat → Msg → Str → Option Msg)
    (upstreamDNS : Str) (r : Msg) (q : Question)
    (hq : r.question = [q])
    (hmiss : shouldRedirectQuery maps (strLower q.name) = none) :
    handleDNSRequest maps parseIP exchange upstreamDNS r
      = (match exchange upstreamTimeoutSeconds r upstreamDNS with
         | none => { initialReply r with rcode := RcodeServerFailure }
         | some resp => resp)
    ∧ upstreamTimeoutSeconds = 5 := by
  refine ⟨?_, rfl⟩
  unfold handleDNSRequest
  rw [hq]
  simp [handleQuestions, hmiss, forwardToUpstream]

/-- C7 witness: a miss against the example rules, once with a failing
upstream exchange (SERVFAIL) and once with a successful one (the upstream
reply is written back unchanged). -/
theorem forward_miss_verbatim_servfail_witness :
    handleDNSRequest exampleWildcardMaps (fun _ => none) (fun _ _ _ => none)
        ("1.1.1.1:53".data) forwardReqEx
      = { initialReply forwardReqEx with rcode := RcodeServerFailure }
    ∧ handleDNSRequest exampleWildcardMaps (fun _ => none)
        (fun _ req _ => some { req with rcode := RcodeSuccess })
        ("1.1.1.1:53".data) forwardReqEx
      = { forwardReqEx with rcode := RcodeSuccess } :=
  ⟨(forward_miss_verbatim_servfail exampleWildcardMaps (fun _ => none)
      (fun _ _ _ => none) ("1.1.1.1:53".data) forwardReqEx
      { name := "example.org.".data, qtype := TypeA } rfl (by decide)).1,
   (forward_miss_verbatim_servfail exampleWildcardMaps (fun _ => none)
      (fun _ req _ => some { req with rcode := RcodeSuccess }) ("1.1.1.1:53".data)
      forwardReqEx { name := "example.org.".data, qtype := TypeA } rfl (by decide)).1⟩

/-- Setting the Epic-URL header and then the identifier header leaves the
Epic-URL header holding exactly the value just written. -/
theorem headerPeek_after_set (hs : List (Str × Str)) (v identifier : Str) :
    headerPeek (mapSet (mapSet hs xEpicURLKey v) telemachusKey identifier) xEpicURLKey
      = v := by
  unfold headerPeek
  rw [mapLookup_mapSet_ne _ _ _ _ (by decide), mapLookup_mapSet_self]
  rfl

/-! Claim C8: the outbound `X-Epic-URL` value. -/

/-- C8.  The outbound `X-Epic-URL` equals the client-supplied value when that
header is non-empty; otherwise the full reconstructed inbound URL when the
inbound host is not `localhost`; otherwise the (possibly empty) existing
value copied through unchanged. -/
theorem epic_url_header_value (upstreamURL identifier : Str) (req : ProxyRequest) :
    headerPeek (Handler upstreamURL identifier req).1 xEpicURLKey
      = (if ¬ headerPeek req.headers xEpicURLKey = []
         then headerPeek req.headers xEpicURLKey
         else if ¬ req.host = "localhost".data then req.fullURL
         else headerPeek req.headers xEpicURLKey) := by
  by_cases h1 : headerPeek req.headers xEpicURLKey = []
  · by_cases h2 : req.host = "localhost".data
    · simp [Handler, h1, h2, headerPeek_after_set]
    · simp [Handler, h1, h2, headerPeek_after_set]
  · simp [Handler, h1, headerPeek_after_set]

/-- Building the maps from a single enabled rule yields exactly one entry, in
the wildcard map for a star-dot domain and in the exact map otherwise. -/
theorem updateRedirects_single (r : DNSRedirect) (h : r.enabled = true) :
    updateRedirects [r]
      = if startsWith (normalizeName r.domain) ("*.".data)
        then { redirects := []
               redirectsWildcard := [((normalizeName r.domain).drop 2, r.target)] }
        else { redirects := [(normalizeName r.domain, r.target)]
               redirectsWildcard := [] } := by
  by_cases hp : startsWith (normalizeName r.domain) ("*.".data) = true
  · simp [updateRedirects, GetEnabledRedirects, List.filter, h, hp, mapSet]
  · simp only [Bool.not_eq_true] at hp
    simp [updateRedirects, GetEnabledRedirects, List.filter, h, hp, mapSet]

/-- With a single enabled rule, any reported match returns that rule's
target. -/
theorem shouldRedirectQuery_single_target (r : DNSRedirect) (h : r.enabled = true)
    (n : Str) (hmatch : (shouldRedirectQuery (updateRedirects [r]) n).isSome = true) :
    shouldRedirectQuery (updateRedirects [r]) n = some r.target := by
  rw [updateRedirects_single r h] at hmatch ⊢
  by_cases hp : startsWith (normalizeName r.domain) ("*.".data) = true
  · simp only [hp, if_true] at hmatch ⊢
    by_cases hs : hasSuffix (normalizeName n) ((normalizeName r.domain).drop 2) = true
    · simp [shouldRedirectQuery, mapLookup, wildcardLookup, hs]
    · simp only [Bool.not_eq_true] at hs
      simp [shouldRedirectQuery, mapLookup, wildcardLookup, hs] at hmatch
  · simp only [Bool.not_eq_true] at hp
    simp only [hp, Bool.false_eq_true, if_false] at hmatch ⊢
    by_cases he : normalizeName n = normalizeName r.domain
    · simp [shouldRedirectQuery, mapLookup, wildcardLookup, he]
    · simp [shouldRedirectQuery, mapLookup, wildcardLookup, he] at hmatch

/-! Claim C9: non-IP targets pass validation and reach answers. -/

/-- C9.  Validation accepts any redirect with non-empty domain and target —
the target is never parsed as an IP — so an enabled rule with a non-IP
target is served: a matching query yields the raw target, and the answer for
qtype A or CNAME carries the nil result of IP parsing while qtype AAAA
falls back to `::1`. -/
theorem nonip_target_accepted_and_answered (d t desc n qn : Str)
    (parseIP : Str → Option GoIP) (m : Msg)
    (hd : ¬ d = []) (ht : ¬ t = []) (hip : parseIP t = none)
    (hmatch : (shouldRedirectQuery (updateRedirects
        [{ domain := d, target := t, description := desc, enabled := true }]) n).isSome
        = true) :
    validateRedirects
        [{ domain := d, target := t, description := desc, enabled := true }] = none
    ∧ shouldRedirectQuery (updateRedirects
        [{ domain := d, target := t, description := desc, enabled := true }]) n = some t
    ∧ handleRedirectQuery parseIP m { name := qn, qtype := TypeA } t
        = { m with answer := m.answer ++ [RR.A qn 300 none] }
    ∧ handleRedirectQuery parseIP m { name := qn, qtype := TypeCNAME } t
        = { m with answer := m.answer ++ [RR.A qn 300 none] }
    ∧ handleRedirectQuery parseIP m { name := qn, qtype := TypeAAAA } t
        = { m with answer := m.answer ++ [RR.AAAA qn 300 ip6Loopback] } := by
  refine ⟨?_, shouldRedirectQuery_single_target _ rfl n hmatch, ?_, ?_, ?_⟩
  · simp [validateRedirects, hd, ht]
  · simp [handleRedirectQuery, hip]
  · simp [handleRedirectQuery, hip, TypeA, TypeAAAA, TypeCNAME]
  · simp [handleRedirectQuery, hip, TypeA, TypeAAAA]

/-- C9 witness: the rule `game.example.com -> not-an-ip` passes validation,
matches its own domain, and produces the nil-address and `::1` answers. -/
theorem nonip_target_witness :
    validateRedirects [nonIPRuleEx] = none
    ∧ shouldRedirectQuery (updateRedirects [nonIPRuleEx]) ("game.example.com".data)
        = some ("not-an-ip".data)
    ∧ handleRedirectQuery (fun _ => none) emptyMsg
        { name := "game.example.com.".data, qtype := TypeA } ("not-an-ip".data)
        = { emptyMsg with answer := emptyMsg.answer
              ++ [RR.A ("game.example.com.".data) 300 none] }
    ∧ handleRedirectQuery (fun _ => none) emptyMsg
        { name := "game.example.com.".data, qtype := TypeCNAME } ("not-an-ip".data)
        = { emptyMsg with answer := emptyMsg.answer
              ++ [RR.A ("game.example.com.".data) 300 none] }
    ∧ handleRedirectQuery (fun _ => none) emptyMsg
        { name := "game.example.com.".data, qtype := TypeAAAA } ("not-an-ip".data)
        = { emptyMsg with answer := emptyMsg.answer
              ++ [RR.AAAA ("game.example.com.".data) 300 ip6Loopback] } :=
  nonip_target_accepted_and_answered ("game.example.com".data) ("not-an-ip".data) []
    ("game.example.com".data) ("game.example.com.".data) (fun _ => none) emptyMsg
    (by decide) (by decide) rfl (by decide)

/-- The in-place enabled flip rewrites exactly the addressed position. -/
theorem toggleAt_take_drop :
    ∀ (rs : List DNSRedirect) (i : Nat), i < rs.length →
      toggleAt rs i
        = rs.take i
          ++ [{ rs.getD i default with enabled := !(rs.getD i default).enabled }]
          ++ rs.drop (i + 1) := by
  intro rs
  induction rs with
  | nil => intro i h; simp at h
  | cons r rest ih =>
    intro i h
    cases i with
    | zero => simp [toggleAt]
    | succ n =>
      simp only [List.length_cons, Nat.succ_lt_succ_iff] at h
      simp [toggleAt, ih n h]

/-! Claim C10: index-addressed redirect mutations. -/

/-- C10.  An out-of-range index makes both `RemoveRedirect` and
`ToggleRedirect` return the invalid-index error with the collection intact
and no save; an in-range index removes exactly the addressed element
(respectively flips exactly its enabled flag) and saves. -/
theorem redirect_index_ops (rs : List DNSRedirect) (i : Int) :
    ((i < 0 ∨ (rs.length : Int) ≤ i) →
      RemoveRedirect rs i
        = { redirects := rs, saveCalled := false
            err := some ("invalid redirect index".data) }
      ∧ ToggleRedirect rs i
        = { redirects := rs, saveCalled := false
            err := some ("invalid redirect index".data) })
    ∧ (0 ≤ i → i < (rs.length : Int) →
      (RemoveRedirect rs i).redirects = rs.eraseIdx i.toNat
      ∧ (RemoveRedirect rs i).saveCalled = true
      ∧ (RemoveRedirect rs i).err = none
      ∧ (ToggleRedirect rs i).redirects
          = rs.take i.toNat
            ++ [{ rs.getD i.toNat default with
                    enabled := !(rs.getD i.toNat default).enabled }]
            ++ rs.drop (i.toNat + 1)
      ∧ (ToggleRedirect rs i).saveCalled = true
      ∧ (ToggleRedirect rs i).err = none) := by
  constructor
  · intro h
    have hc : i < 0 ∨ i ≥ (rs.length : Int) := h
    constructor
    · simp [RemoveRedirect, hc]
    · simp [ToggleRedirect, hc]
  · intro h0 h1
    have hc : ¬ (i < 0 ∨ i ≥ (rs.length : Int)) := by omega
    have hn : i.toNat < rs.length := by omega
    refine ⟨?_, ?_, ?_, ?_, ?_, ?_⟩
    · simp [RemoveRedirect, hc, List.eraseIdx_eq_take_drop_succ]
    · simp [RemoveRedirect, hc]
    · simp [RemoveRedirect, hc]
    · simp [ToggleRedirect, hc, toggleAt_take_drop rs i.toNat hn]
    · simp [ToggleRedirect, hc]
    · simp [ToggleRedirect, hc]

/-- C10 witness: both operations at an out-of-range and an in-range index of
a two-element collection. -/
theorem redirect_index_ops_witness :
    RemoveRedirect redirectRulesEx 5
      = { redirects := redirectRulesEx, saveCalled := false
          err := some ("invalid redirect index".data) }
    ∧ ToggleRedirect redirectRulesEx (-1)
      = { redirects := redirectRulesEx, saveCalled := false
          err := some ("invalid redirect index".data) }
    ∧ (RemoveRedirect redirectRulesEx 1).redirects = redirectRulesEx.eraseIdx 1
    ∧ (RemoveRedirect redirectRulesEx 1).saveCalled = true
    ∧ (ToggleRedirect redirectRulesEx 1).redirects
        = redirectRulesEx.take 1
          ++ [{ redirectRulesEx.getD 1 default with
                  enabled := !(redirectRulesEx.getD 1 default).enabled }]
          ++ redirectRulesEx.drop 2
    ∧ (ToggleRedirect redirectRulesEx 1).saveCalled = true :=
  ⟨((redirect_index_ops redirectRulesEx 5).1 (by decide)).1,
   ((redirect_index_ops redirectRulesEx (-1)).1 (by decide)).2,
   ((redirect_index_ops redirectRulesEx 1).2 (by decide) (by decide)).1,
   ((redirect_index_ops redirectRulesEx 1).2 (by decide) (by decide)).2.1,
   ((redirect_index_ops redirectRulesEx 1).2 (by decide) (by decide)).2.2.2.1,
   ((redirect_index_ops redirectRulesEx 1).2 (by decide) (by decide)).2.2.2.2.1⟩

end Aegis
